import Mathlib

/-!
Verification of the session orchestration and SSE relay core of the
fact-checker tray application (Electron main process).

The embedding below translates the module-level mutable state and the
operations of the main process source file: process management
(startBackend, startClient, stopClient and their close handlers), the SSE
relay (connectSSE, disconnectSSE, scheduleSSEReconnect, the data handler),
and the IPC session handlers (start-session, stop-session, pause-session,
resume-session, get-session-state).

JavaScript strings are modelled by Lean strings; the primitive string
operations used by the source (split, startsWith, slice, trim, parseInt)
are implemented structurally over the character list so that every
definition evaluates by kernel reduction. The external JSON parser
(JSON.parse) is a parameter of the data handler: a parse result of none
models a thrown parse error. Asynchronous outcomes of the spawned
processes are supplied by an oracle record, and each event handler is a
pure state transformer, reflecting the single-threaded event-driven
execution of the source.
-/

namespace FactChecker

/-- Source constant SSE_BACKOFF_INITIAL = 2000. -/
def SSE_BACKOFF_INITIAL : ℚ := 2000

/-- Source constant SSE_BACKOFF_MULTIPLIER = 1.5. -/
def SSE_BACKOFF_MULTIPLIER : ℚ := 3 / 2

/-- Source constant SSE_BACKOFF_MAX = 30000. -/
def SSE_BACKOFF_MAX : ℚ := 30000

/-- Closure state of one live SSE connection: the chunk reassembly buffer
and the connection-local cursor currentLastId, initialised from the lastId
argument of connectSSE. -/
structure SSEConn where
  buffer : String
  currentLastId : Int
  deriving Repr, DecidableEq

/-- Module-level mutable state of the main process: the two child process
handles, the in-flight SSE request, the paused flag, liveness of the popup
window, the pending reconnect timer (carrying the lastId captured by its
closure), the current backoff delay, and the session operation guard flag. -/
structure AppState where
  backendProcess : Option Nat
  clientProcess : Option Nat
  sseRequest : Option SSEConn
  isPaused : Bool
  windowAlive : Bool
  sseReconnectTimer : Option Int
  sseBackoffDelay : ℚ
  sessionOpInProgress : Bool
  deriving Repr, DecidableEq

/-- Module state at application startup. -/
def initialState : AppState :=
  { backendProcess := none, clientProcess := none, sseRequest := none,
    isPaused := false, windowAlive := true, sseReconnectTimer := none,
    sseBackoffDelay := SSE_BACKOFF_INITIAL, sessionOpInProgress := false }

/-- disconnectSSE: clear any pending reconnect timer, destroy the in-flight
request, and reset the backoff delay to the initial value. -/
def disconnectSSE (s : AppState) : AppState :=
  { s with sseReconnectTimer := none, sseRequest := none,
           sseBackoffDelay := SSE_BACKOFF_INITIAL }

/-- scheduleSSEReconnect: a no-op when a reconnect timer is already pending;
otherwise arms a timer for the current backoff delay and then grows the
delay by the multiplier, capped at the maximum. The second component is the
setTimeout duration actually used (none when no timer was armed). -/
def scheduleSSEReconnect (lastId : Int) (s : AppState) : AppState × Option ℚ :=
  if s.sseReconnectTimer.isSome then (s, none)
  else
    ({ s with sseReconnectTimer := some lastId,
              sseBackoffDelay :=
                min (s.sseBackoffDelay * SSE_BACKOFF_MULTIPLIER) SSE_BACKOFF_MAX },
     some s.sseBackoffDelay)

/-- connectSSE: first calls disconnectSSE, then opens a request to the
events endpoint carrying lastId in the Last-Event-ID header (returned as
the second component); the fresh connection closure starts with an empty
buffer and currentLastId = lastId. The lastId parameter defaults to 0 at
every call site that omits it in the source. -/
def connectSSE (lastId : Int) (s : AppState) : AppState × Int :=
  let s1 := disconnectSSE s
  ({ s1 with sseRequest := some { buffer := "", currentLastId := lastId } }, lastId)

/-- Firing of an armed reconnect timer: the timer clears itself and calls
connectSSE with the lastId captured when it was scheduled. -/
def sseTimerFires (s : AppState) : AppState :=
  match s.sseReconnectTimer with
  | none => s
  | some lastId => (connectSSE lastId { s with sseReconnectTimer := none }).1

/-- Status-200 callback of connectSSE: the backoff delay is reset on a
successful connection. -/
def sseResponseOK (s : AppState) : AppState :=
  { s with sseBackoffDelay := SSE_BACKOFF_INITIAL }

/-- Whitespace predicate matching the characters relevant to the event
stream wire format (JavaScript trim whitespace restricted to ASCII). -/
def isWsChar (c : Char) : Bool :=
  c = ' ' || c = '\n' || c = '\t' || c = '\r'

/-- JavaScript str.trim over the character list. -/
def strTrim (s : String) : String :=
  String.mk (((s.data.dropWhile isWsChar).reverse.dropWhile isWsChar).reverse)

/-- JavaScript str.startsWith pre. -/
def strStartsWith (s pre : String) : Bool :=
  pre.data.isPrefixOf s.data

/-- JavaScript str.slice n (from index n to the end). -/
def strDrop (s : String) (n : Nat) : String :=
  String.mk (s.data.drop n)

/-- Splitter on the blank-line event delimiter, the JavaScript
str.split of two consecutive newline characters: leftmost match, both
delimiter characters consumed, one (possibly empty) piece per gap. -/
def splitBlankAux : List Char → List Char → List (List Char)
  | '\n' :: '\n' :: rest, acc => acc.reverse :: splitBlankAux rest []
  | c :: rest, acc => splitBlankAux rest (c :: acc)
  | [], acc => [acc.reverse]

/-- JavaScript buffer.split of the blank-line delimiter. -/
def splitBlankLine (s : String) : List String :=
  (splitBlankAux s.data []).map String.mk

/-- Splitter on a single newline character. -/
def splitNlAux : List Char → List Char → List (List Char)
  | '\n' :: rest, acc => acc.reverse :: splitNlAux rest []
  | c :: rest, acc => splitNlAux rest (c :: acc)
  | [], acc => [acc.reverse]

/-- JavaScript msg.split of one newline. -/
def splitLines (s : String) : List String :=
  (splitNlAux s.data []).map String.mk

/-- Model of parseInt(str, 10): skip leading whitespace, optional sign,
then the longest digit prefix; none models NaN (no digits found). -/
def parseIntJS (str : String) : Option Int :=
  let t := str.data.dropWhile isWsChar
  let signAndRest : Int × List Char :=
    match t with
    | '-' :: r => (-1, r)
    | '+' :: r => (1, r)
    | r => (1, r)
  let digits := signAndRest.2.takeWhile Char.isDigit
  if digits.isEmpty then none
  else some (signAndRest.1 * (digits.foldl (fun n c => 10 * n + (c.toNat - 48)) 0 : Nat))

/-- Per-message line scan of the SSE data handler: comment lines
(heartbeats) are skipped, an id line replaces the pending event id (a
failed parse modelling NaN as none), a data line replaces the pending
payload text. -/
def parseEventLines (lines : List String) : Option Int × Option String :=
  lines.foldl
    (fun acc line =>
      if strStartsWith line ":" then acc
      else if strStartsWith line "id: " then (parseIntJS (strDrop line 4), acc.2)
      else if strStartsWith line "data: " then (acc.1, some (strDrop line 6))
      else acc)
    (none, none)

/-- Loop body of the data handler over one complete message: blank
messages are skipped; a message whose data payload parses updates the
cursor when the event id is truthy (a number other than 0) and appends the
payload to the forwarded list when the relay is not paused and the popup
window is alive; a payload whose parse fails is dropped (logged only). -/
def sseProcessMsg {J : Type} (parse : String → Option J) (paused windowAlive : Bool)
    (st : Int × List J) (msg : String) : Int × List J :=
  if (strTrim msg).data.isEmpty then st
  else
    match (parseEventLines (splitLines msg)).2 with
    | none => st
    | some payload =>
      match parse payload with
      | none => st
      | some v =>
        let newLast : Int :=
          match (parseEventLines (splitLines msg)).1 with
          | some n => if n = 0 then st.1 else n
          | none => st.1
        let outs := if paused = false && windowAlive = true then st.2 ++ [v] else st.2
        (newLast, outs)

/-- One data chunk arriving on a live connection, parameterised by the
JSON parser: the chunk is appended to the buffer, complete
blank-line-delimited messages are processed in order, and the trailing
incomplete fragment is retained as the new buffer. Returns the new
connection closure state and the payloads forwarded to the popup window. -/
def sseOnData {J : Type} (parse : String → Option J) (paused windowAlive : Bool)
    (conn : SSEConn) (chunk : String) : SSEConn × List J :=
  let buf := conn.buffer ++ chunk
  let parts := splitBlankLine buf
  let messages := parts.dropLast
  let newBuf := (parts.getLast?).getD ""
  let r := messages.foldl (sseProcessMsg parse paused windowAlive) (conn.currentLastId, [])
  ({ buffer := newBuf, currentLastId := r.1 }, r.2)

/-- App-level view of a data chunk event: a no-op when no connection is
live; otherwise the data handler runs on the connection closure with the
global isPaused flag and the liveness of the popup window. No code path of
this handler tears the connection down. -/
def sseDataEvent {J : Type} (parse : String → Option J) (chunk : String)
    (s : AppState) : AppState × List J :=
  match s.sseRequest with
  | none => (s, [])
  | some conn =>
    let r := sseOnData parse s.isPaused s.windowAlive conn chunk
    ({ s with sseRequest := some r.1 }, r.2)

/-- Concrete stand-in JSON parser for closed evaluations: accepts exactly
the JSON literal true (a well-formed document) and nothing else. -/
def parseTrueOnly (str : String) : Option Unit :=
  if str = "true" then some () else none

/-- Terminal outcome of a backend start attempt observed by its resolve
logic: the readiness marker is seen, the process closes first with an exit
code, or neither happens within the 60 second bound. -/
inductive BackendStartOutcome
  | ready
  | exits (code : Int)
  | timeout
  deriving Repr, DecidableEq

/-- Terminal outcome of a client start attempt after spawning: the
recording marker is seen, the process closes first with an exit code, or
neither happens within the 120 second bound. -/
inductive ClientStartOutcome
  | recording
  | closes (code : Int)
  | timeout
  deriving Repr, DecidableEq

/-- Oracle for the asynchronous outcomes one session operation observes:
the permission check result, presence of the venv python binary, the
handles assigned by spawn, the backend and client start outcomes, and the
health poll result. -/
structure Env where
  permsGranted : Bool
  pythonExists : Bool
  backendHandle : Nat
  backendOutcome : BackendStartOutcome
  healthy : Bool
  clientHandle : Nat
  clientOutcome : ClientStartOutcome
  deriving Repr, DecidableEq

/-- State effect of stopClient: resolves immediately with no effect when no
client process exists; otherwise the handle is cleared immediately (before
confirmed exit) to make stop idempotent, and the process is signalled. -/
def stopClientState (s : AppState) : AppState :=
  if s.clientProcess.isSome then { s with clientProcess := none } else s

/-- State effect of stopBackend: resolves immediately with no effect when
no backend process exists; otherwise the handle is cleared immediately and
the process is signalled. -/
def stopBackendState (s : AppState) : AppState :=
  if s.backendProcess.isSome then { s with backendProcess := none } else s

/-- The close handler installed on the backend process: clears the handle,
notifies the renderer, then cascades by stopping the client process and
disconnecting the SSE relay. -/
def backendOnClose (s : AppState) : AppState :=
  disconnectSSE (stopClientState { s with backendProcess := none })

/-- Rejection message of startBackend when the venv python binary is
missing. -/
def pythonMissingMsg : String :=
  "Python not found at backend/venv/bin/python. Run ./scripts/setup.sh first."

/-- startBackend: resolves as a no-op when a backend process already
exists; rejects without spawning when the venv python binary is missing;
otherwise spawns and either resolves on the readiness marker, rejects when
the process closes first (its close handler cascading as backendOnClose),
or rejects on the 60 second timeout with the spawned process left in
place. -/
def startBackend (env : Env) (s : AppState) : AppState × Except String Unit :=
  if s.backendProcess.isSome then (s, Except.ok ())
  else if env.pythonExists = false then (s, Except.error pythonMissingMsg)
  else
    let s1 := { s with backendProcess := some env.backendHandle }
    match env.backendOutcome with
    | BackendStartOutcome.ready => (s1, Except.ok ())
    | BackendStartOutcome.exits code =>
      (backendOnClose s1, Except.error ("Backend exited with code " ++ toString code))
    | BackendStartOutcome.timeout =>
      (s1, Except.error "Backend failed to start within 60 seconds")

/-- The interactive menu selection map of the client process: the four
known source kinds and their menu digits. -/
def choiceMap (sourceType : String) : Option String :=
  if sourceType = "youtube" then some "1"
  else if sourceType = "meet" then some "2"
  else if sourceType = "local" then some "3"
  else if sourceType = "stream" then some "4"
  else none

/-- Target sanitisation before the scripted stdin write: every carriage
return and newline character is removed (the global regex replace of the
source). -/
def safeTarget (target : String) : String :=
  String.mk (target.data.filter (fun c => c ≠ '\r' ∧ c ≠ '\n'))

/-- The two scripted stdin lines written to the client before its stdin is
closed: the menu selection digit and the sanitised target. -/
def clientStdinScript (choice target : String) : List String :=
  [choice, safeTarget target]

/-- startClient: rejects when a client process already exists; rejects for
an unrecognised source type before spawning anything; otherwise spawns,
writes the scripted stdin, and resolves on the recording marker, on close
(the close handler clearing the handle and disconnecting the SSE relay
first, resolving even on failure so the UI can update), or on the 120
second timeout. -/
def startClient (env : Env) (sourceType target : String) (s : AppState) :
    AppState × Except String Unit :=
  if s.clientProcess.isSome then (s, Except.error "Client already running")
  else
    match choiceMap sourceType with
    | none => (s, Except.error ("Unknown source type: " ++ sourceType))
    | some choice =>
      let _stdinWrites := clientStdinScript choice target
      let s1 := { s with clientProcess := some env.clientHandle }
      match env.clientOutcome with
      | ClientStartOutcome.recording => (s1, Except.ok ())
      | ClientStartOutcome.closes _ =>
        (disconnectSSE { s1 with clientProcess := none }, Except.ok ())
      | ClientStartOutcome.timeout => (s1, Except.ok ())

/-- Result object of an IPC invoke handler: success is the object with
success true, failure carries the error string alongside success false. -/
inductive IpcResult
  | success
  | failure (error : String)
  deriving Repr, DecidableEq

/-- Control outcome of the try block of the start-session handler: a clean
finish, the early permission-denied return, or a raised exception carrying
its message. -/
inductive StartOutcome
  | ok
  | permissionDenied
  | raised (msg : String)
  deriving Repr, DecidableEq

/-- The try block of the start-session handler: permission check (an early
return, not an exception), backend start (a rejection raises), health poll
with retry (exhaustion only warns and never raises), SSE connect with
cursor 0 when no request is live, client start (a rejection raises), then
the paused flag is cleared. -/
def startSessionBody (env : Env) (sourceType target : String) (s : AppState) :
    AppState × StartOutcome :=
  if env.permsGranted = false then (s, StartOutcome.permissionDenied)
  else
    match startBackend env s with
    | (s1, Except.error e) => (s1, StartOutcome.raised e)
    | (s1, Except.ok _) =>
      let s2 := if s1.sseRequest.isNone then (connectSSE 0 s1).1 else s1
      match startClient env sourceType target s2 with
      | (s3, Except.error e) => (s3, StartOutcome.raised e)
      | (s3, Except.ok _) => ({ s3 with isPaused := false }, StartOutcome.ok)

/-- The catch block of the start-session handler: disconnect the SSE relay
and stop the client process; the backend process is deliberately left
alone. -/
def startSessionRollback (s : AppState) : AppState :=
  stopClientState (disconnectSSE s)

/-- The start-session IPC handler: rejected synchronously while another
session operation is in flight; otherwise the guard flag is set, the try
block runs, a raised exception triggers the rollback and the original
message is returned, and the finally block clears the guard flag. -/
def startSession (env : Env) (sourceType target : String) (s : AppState) :
    AppState × IpcResult :=
  if s.sessionOpInProgress then (s, IpcResult.failure "Operation already in progress")
  else
    let s1 := { s with sessionOpInProgress := true }
    match startSessionBody env sourceType target s1 with
    | (s2, StartOutcome.ok) =>
      ({ s2 with sessionOpInProgress := false }, IpcResult.success)
    | (s2, StartOutcome.permissionDenied) =>
      ({ s2 with sessionOpInProgress := false },
       IpcResult.failure "Screen Recording permission required")
    | (s2, StartOutcome.raised e) =>
      ({ startSessionRollback s2 with sessionOpInProgress := false },
       IpcResult.failure e)

/-- The stop-session IPC handler: rejected synchronously while another
session operation is in flight; otherwise clears the paused flag,
disconnects the SSE relay, stops the client process, and succeeds; the
finally block clears the guard flag. The backend process is not touched. -/
def stopSession (s : AppState) : AppState × IpcResult :=
  if s.sessionOpInProgress then (s, IpcResult.failure "Operation already in progress")
  else
    let s1 := { s with sessionOpInProgress := true }
    let s2 := { s1 with isPaused := false }
    let s3 := stopClientState (disconnectSSE s2)
    ({ s3 with sessionOpInProgress := false }, IpcResult.success)

/-- The pause-session IPC handler: sets the paused flag and disconnects
the SSE relay; it always returns success (not modelled). -/
def pauseSession (s : AppState) : AppState :=
  disconnectSSE { s with isPaused := true }

/-- The resume-session IPC handler: clears the paused flag and calls
connectSSE with no argument, so the defaulted lastId 0 becomes both the
new connection cursor and the Last-Event-ID header sent (the second
component); it always returns success (not modelled). -/
def resumeSession (s : AppState) : AppState × Int :=
  connectSSE 0 { s with isPaused := false }

/-- Snapshot object returned by the get-session-state IPC handler. -/
structure SessionStateView where
  backendRunning : Bool
  clientRunning : Bool
  sseConnected : Bool
  isPaused : Bool
  deriving Repr, DecidableEq

/-- The get-session-state IPC handler: a pure snapshot of the four
observable flags, derived from the process handles and the request. -/
def getSessionState (s : AppState) : SessionStateView :=
  { backendRunning := s.backendProcess.isSome
    clientRunning := s.clientProcess.isSome
    sseConnected := s.sseRequest.isSome
    isPaused := s.isPaused }

/-- Oracle with every step succeeding, used for closed evaluations. -/
def envAllOk : Env :=
  { permsGranted := true, pythonExists := true, backendHandle := 1,
    backendOutcome := BackendStartOutcome.ready, healthy := true,
    clientHandle := 2, clientOutcome := ClientStartOutcome.recording }

/-- Oracle in which the venv python binary is absent, so startBackend
rejects before spawning. -/
def envNoPython : Env :=
  { envAllOk with pythonExists := false }

/-- C4: start-session and stop-session are mutually exclusive in time: a
call of either handler issued while another session operation is in flight
returns success false with the operation-in-progress error synchronously
and leaves the state unchanged, so it is never queued or interleaved with
the in-flight operation. -/
theorem session_ops_mutually_exclusive (env : Env) (st tg : String)
    (s : AppState) (h : s.sessionOpInProgress = true) :
    startSession env st tg s = (s, IpcResult.failure "Operation already in progress") ∧
    stopSession s = (s, IpcResult.failure "Operation already in progress") := by
  simp [startSession, stopSession, h]

/-- Witness for C4 at a concrete in-flight state. -/
theorem session_ops_mutually_exclusive_witness :
    startSession envAllOk "youtube" "url" { initialState with sessionOpInProgress := true }
      = ({ initialState with sessionOpInProgress := true },
         IpcResult.failure "Operation already in progress") ∧
    stopSession { initialState with sessionOpInProgress := true }
      = ({ initialState with sessionOpInProgress := true },
         IpcResult.failure "Operation already in progress") :=
  session_ops_mutually_exclusive envAllOk "youtube" "url"
    { initialState with sessionOpInProgress := true } rfl

/-- C5: when the backend process exits unexpectedly, the close handler
cascade clears the backend handle, stops the client process and
disconnects the SSE relay, so a subsequent get-session-state snapshot
reports backendRunning, clientRunning and sseConnected all false — from
any prior state, in particular one with a running capture process. -/
theorem backend_crash_cascades (s : AppState) :
    (getSessionState (backendOnClose s)).backendRunning = false ∧
    (getSessionState (backendOnClose s)).clientRunning = false ∧
    (getSessionState (backendOnClose s)).sseConnected = false := by
  unfold getSessionState backendOnClose disconnectSSE stopClientState
  by_cases h : s.clientProcess.isSome <;> simp [h]

/-- C9: frame property of the two teardown paths: the stop-session handler
(in both its guarded and its normal branch) and the failure rollback of the
start-session handler leave the backend process handle exactly as it was;
neither path stops the service process. -/
theorem backend_handle_framed (s : AppState) :
    (stopSession s).1.backendProcess = s.backendProcess ∧
    (startSessionRollback s).backendProcess = s.backendProcess := by
  constructor
  · unfold stopSession stopClientState disconnectSSE
    by_cases h : s.sessionOpInProgress <;>
      by_cases hc : s.clientProcess.isSome <;> simp [h, hc]
  · unfold startSessionRollback stopClientState disconnectSSE
    by_cases hc : s.clientProcess.isSome <;> simp [hc]

/-- C10: a capture-process start issued while a client handle already
exists rejects immediately with the Client already running error and
spawns nothing (the state is unchanged), whereas a backend start issued
while a backend handle already exists resolves as a no-op success. -/
theorem client_start_rejects_when_running (env : Env) (st tg : String) (s : AppState) :
    (s.clientProcess.isSome = true →
      startClient env st tg s = (s, Except.error "Client already running")) ∧
    (s.backendProcess.isSome = true →
      startBackend env s = (s, Except.ok ())) := by
  constructor
  · intro h; simp [startClient, h]
  · intro h; simp [startBackend, h]

/-- Witness for C10 at a concrete state with both processes running. -/
theorem client_start_rejects_when_running_witness :
    startClient envAllOk "youtube" "url"
        { initialState with clientProcess := some 2, backendProcess := some 1 }
      = ({ initialState with clientProcess := some 2, backendProcess := some 1 },
         Except.error "Client already running") ∧
    startBackend envAllOk
        { initialState with clientProcess := some 2, backendProcess := some 1 }
      = ({ initialState with clientProcess := some 2, backendProcess := some 1 },
         Except.ok ()) :=
  ⟨(client_start_rejects_when_running envAllOk "youtube" "url" _).1 rfl,
   (client_start_rejects_when_running envAllOk "youtube" "url" _).2 rfl⟩

/-- C6: the stop-session handler is idempotent and total: whenever no
session operation is in flight (in particular when no session is active at
all) it returns success, and running it again immediately also returns
success and leaves the state exactly as after the first run. -/
theorem stop_session_idempotent (s : AppState) (h : s.sessionOpInProgress = false) :
    (stopSession s).2 = IpcResult.success ∧
    stopSession (stopSession s).1 = ((stopSession s).1, IpcResult.success) := by
  cases hc : s.clientProcess with
  | none => simp [stopSession, stopClientState, disconnectSSE, h, hc]
  | some v => simp [stopSession, stopClientState, disconnectSSE, h, hc]

/-- Witness for C6 at the fresh state, where no session is active. -/
theorem stop_session_idempotent_witness :
    (stopSession initialState).2 = IpcResult.success ∧
    stopSession (stopSession initialState).1
      = ((stopSession initialState).1, IpcResult.success) :=
  stop_session_idempotent initialState rfl

/-- C1: evaluation of the backoff at the failing input. From the fresh
state, the first SSE connection attempt fails and a reconnect timer is
armed with delay 2000; the timer fires, the second attempt fails, and the
second reconnect timer is again armed with delay 2000 — not with the grown
delay 3000 the claimed sequence 2000, 3000, 4500, 6750, ... requires. The
cause: connectSSE begins by calling disconnectSSE, which resets the
backoff delay before every attempt, so the multiplier growth performed by
scheduleSSEReconnect never takes effect. -/
theorem sse_backoff_second_delay_stays_2000 :
    (scheduleSSEReconnect 0 (connectSSE 0 initialState).1).2 = some 2000 ∧
    (scheduleSSEReconnect 0
        (sseTimerFires (scheduleSSEReconnect 0 (connectSSE 0 initialState).1).1)).2
      = some 2000 ∧
    (some (2000 : ℚ) ≠ some (3000 : ℚ)) := by
  refine ⟨rfl, rfl, ?_⟩
  decide

/-- C2: evaluation of the resumption cursor at the failing input. With a
live connection, delivering one event with id 5 moves the connection
cursor to 5; pause-session followed by resume-session then reconnects with
Last-Event-ID 0, not 5: the resume-session handler calls connectSSE with
its defaulted argument 0, and the connection-local cursor was discarded
when the paused connection was destroyed. -/
theorem resume_session_replays_from_zero :
    ((sseDataEvent parseTrueOnly "id: 5\ndata: true\n\n"
        { initialState with
            sseRequest := some { buffer := "", currentLastId := 0 } }).1.sseRequest
      = some { buffer := "", currentLastId := 5 }) ∧
    ((resumeSession (pauseSession
        (sseDataEvent parseTrueOnly "id: 5\ndata: true\n\n"
          { initialState with
              sseRequest := some { buffer := "", currentLastId := 0 } }).1)).2
      = 0) ∧
    ((0 : Int) ≠ 5) := by
  refine ⟨?_, rfl, by decide⟩
  rfl

/-- C3 counterexample: with every external step succeeding, starting a
session from the fresh state with the unrecognised source type bogus does
fail with the unknown-source-type error, yet the backend process was
spawned before the source type was validated and is left running, so the
observable session state is not unchanged: backendRunning flips from false
to true. -/
theorem start_session_unknown_type_changes_state :
    (startSession envAllOk "bogus" "url" initialState).2
      = IpcResult.failure "Unknown source type: bogus" ∧
    (startSession envAllOk "bogus" "url" initialState).1.backendProcess
      ≠ initialState.backendProcess := by
  constructor
  · rfl
  · decide

/-- C3 amended: a start-session call with an unrecognised source type
(issued with no operation in flight, permissions granted, no client
process, the backend not yet running, python present and the backend
reaching readiness) fails with the unknown-source-type error and spawns no
capture process; isPaused is untouched and clientRunning stays false; but
the SSE relay ends disconnected and the backend process, started before
the source type is validated, is left running, so backendRunning changes
from false to true. -/
theorem start_session_unknown_type_amended (env : Env) (st tg : String)
    (s : AppState) (hop : s.sessionOpInProgress = false)
    (hp : env.permsGranted = true) (hc : s.clientProcess = none)
    (hst : choiceMap st = none) (hb : s.backendProcess = none)
    (hpy : env.pythonExists = true)
    (hr : env.backendOutcome = BackendStartOutcome.ready) :
    startSession env st tg s
      = ({ s with backendProcess := some env.backendHandle,
                  clientProcess := none,
                  sseRequest := none, sseReconnectTimer := none,
                  sseBackoffDelay := SSE_BACKOFF_INITIAL,
                  sessionOpInProgress := false },
         IpcResult.failure ("Unknown source type: " ++ st)) := by
  unfold startSession startSessionBody startBackend startClient
  unfold startSessionRollback connectSSE stopClientState disconnectSSE
  by_cases hs : s.sseRequest.isNone <;>
    simp [hop, hp, hc, hst, hb, hpy, hr, hs]

/-- Witness for the amended C3 at the fresh state. -/
theorem start_session_unknown_type_amended_witness :
    startSession envAllOk "bogus" "url" initialState
      = ({ initialState with
            backendProcess := some envAllOk.backendHandle,
            clientProcess := none,
            sseRequest := none, sseReconnectTimer := none,
            sseBackoffDelay := SSE_BACKOFF_INITIAL,
            sessionOpInProgress := false },
         IpcResult.failure ("Unknown source type: " ++ "bogus")) :=
  start_session_unknown_type_amended envAllOk "bogus" "url" initialState
    rfl rfl rfl rfl rfl rfl rfl

/-- C8: any exception raised inside the try block of the start-session
handler after the operation is admitted triggers the rollback — the SSE
relay is disconnected and the client process stopped, while the finally
block clears the guard — and the original error message is what the
handler returns as its failure result. -/
theorem start_session_exception_rollback (env : Env) (st tg : String)
    (s s2 : AppState) (e : String) (hop : s.sessionOpInProgress = false)
    (hraise : startSessionBody env st tg { s with sessionOpInProgress := true }
      = (s2, StartOutcome.raised e)) :
    startSession env st tg s
      = ({ startSessionRollback s2 with sessionOpInProgress := false },
         IpcResult.failure e) ∧
    (startSession env st tg s).1.sseRequest = none ∧
    (startSession env st tg s).1.clientProcess = none := by
  have h1 : startSession env st tg s
      = ({ startSessionRollback s2 with sessionOpInProgress := false },
         IpcResult.failure e) := by
    simp [startSession, hop, hraise]
  refine ⟨h1, ?_, ?_⟩ <;> rw [h1] <;>
    unfold startSessionRollback stopClientState disconnectSSE <;>
    cases hcc : s2.clientProcess <;> simp [hcc]

/-- Witness for C8: the venv python binary is missing, so startBackend
raises and the original message is returned after the rollback. -/
theorem start_session_exception_rollback_witness :
    startSession envNoPython "youtube" "url" initialState
      = ({ startSessionRollback { initialState with sessionOpInProgress := true } with
            sessionOpInProgress := false },
         IpcResult.failure pythonMissingMsg) ∧
    (startSession envNoPython "youtube" "url" initialState).1.sseRequest = none ∧
    (startSession envNoPython "youtube" "url" initialState).1.clientProcess = none :=
  start_session_exception_rollback envNoPython "youtube" "url" initialState
    { initialState with sessionOpInProgress := true } pythonMissingMsg rfl rfl

/-- Helper: a message consisting of a data line whose payload fails to
parse is dropped by the loop body, leaving cursor and forwarded list
untouched. -/
theorem sseProcessMsg_drops_malformed {J : Type} (parse : String → Option J)
    (st : Int × List J) (hbad : parse "not json" = none) :
    sseProcessMsg parse false true st "data: not json" = st := by
  unfold sseProcessMsg
  rw [show (strTrim "data: not json").data.isEmpty = false from rfl]
  rw [show (parseEventLines (splitLines "data: not json")).2 = some "not json" from rfl]
  simp [hbad]

/-- Helper: a message consisting of a data line whose payload parses is
forwarded by the loop body; with no id line the cursor is unchanged. -/
theorem sseProcessMsg_forwards_wellformed {J : Type} (parse : String → Option J)
    (v : J) (st : Int × List J) (hgood : parse "true" = some v) :
    sseProcessMsg parse false true st "data: true" = (st.1, st.2 ++ [v]) := by
  unfold sseProcessMsg
  rw [show (strTrim "data: true").data.isEmpty = false from rfl]
  rw [show (parseEventLines (splitLines "data: true")).2 = some "true" from rfl]
  rw [show (parseEventLines (splitLines "data: true")).1 = none from rfl]
  simp [hgood]

/-- Helper: on an empty buffer, a chunk holding one malformed event
followed by one well-formed event yields exactly the well-formed payload
and leaves the connection closure with an empty buffer and an unchanged
cursor. -/
theorem sseOnData_drops_one_forwards_one {J : Type} (parse : String → Option J)
    (v : J) (k : Int) (hbad : parse "not json" = none)
    (hgood : parse "true" = some v) :
    sseOnData parse false true ⟨"", k⟩ "data: not json\n\ndata: true\n\n"
      = (⟨"", k⟩, [v]) := by
  simp only [sseOnData]
  rw [show (splitBlankLine
        ((SSEConn.mk "" k).buffer ++ "data: not json\n\ndata: true\n\n"))
      = ["data: not json", "data: true", ""] from rfl]
  simp only [List.dropLast, List.getLast?, Option.getD, List.foldl_cons, List.foldl_nil]
  rw [sseProcessMsg_drops_malformed parse _ hbad,
      sseProcessMsg_forwards_wellformed parse v _ hgood]
  rfl

/-- C7: on a live, unpaused connection with an empty buffer and a live
popup window, a stream input carrying one malformed (unparseable) data
payload followed by one well-formed event forwards exactly the well-formed
payload to the presentation layer; the malformed event is dropped and the
connection survives (the request is still present, with an empty buffer
and an unchanged cursor). The JSON parser is a parameter: a parse result
of none models the thrown parse error of the source. -/
theorem malformed_event_dropped {J : Type} (parse : String → Option J) (v : J)
    (k : Int) (s : AppState)
    (hconn : s.sseRequest = some { buffer := "", currentLastId := k })
    (hpause : s.isPaused = false) (hwin : s.windowAlive = true)
    (hbad : parse "not json" = none) (hgood : parse "true" = some v) :
    sseDataEvent parse "data: not json\n\ndata: true\n\n" s
      = ({ s with sseRequest := some { buffer := "", currentLastId := k } }, [v]) := by
  simp only [sseDataEvent, hconn, hpause, hwin]
  rw [sseOnData_drops_one_forwards_one parse v k hbad hgood]

/-- Witness for C7 with the concrete stand-in parser: not json is rejected
and the JSON literal true parses. -/
theorem malformed_event_dropped_witness :
    sseDataEvent parseTrueOnly "data: not json\n\ndata: true\n\n"
        { initialState with sseRequest := some { buffer := "", currentLastId := 7 } }
      = ({ initialState with
            sseRequest := some { buffer := "", currentLastId := 7 } }, [()]) :=
  malformed_event_dropped parseTrueOnly () 7
    { initialState with sseRequest := some { buffer := "", currentLastId := 7 } }
    rfl rfl rfl rfl rfl

end FactChecker
